import Mathlib

/-!
Verification of the Persistent Session Manager of ABAPDocMCP
(`pkg/adt/amdp_session.go`).

The Go module manages one AMDP debug session per `AMDPSessionManager`:
`Start` fetches a CSRF token and creates the remote session synchronously,
then spawns a worker goroutine (`processCommands`) that drains a buffered
command channel, dispatches each command to the remote debug endpoint, and
replies on the command's private buffered reply channel with a non-blocking
send.  A deferred `cleanup` runs when the worker returns for any reason
(context cancellation, closed channel, Stop command, or a recovered panic).

The embedding below is a faithful translation of that module.  HTTP
interactions are modelled by explicit environment values describing the
outcome of each remote request (transport error / status code / body /
parsed XML), and every operation additionally returns the list of remote
calls it issued, so that properties such as "no remote call is attempted"
or "hard-stop is invoked at most once" are provable statements.
-/

namespace ABAPDocMCP.AMDP

/-- Enum `AMDPCommandType` from the source (iota order preserved). -/
inductive AMDPCommandType
  | start
  | stop
  | step
  | getStatus
  | getVariables
  | setBreakpoint
  | getBreakpoints
deriving DecidableEq, Repr

/-- Command arguments.  The Go code stores a loosely typed
`map[string]interface{}` and extracts `step_type`, `proc_name` and `line`
with type assertions that default to the zero value; the record below
carries exactly those three extracted values with the same defaults. -/
structure Args where
  stepType : String := ""
  procName : String := ""
  line : Int := 0
deriving DecidableEq, Repr

/-- Record `AMDPSessionState` from the source.  `status` is the Go string field
("starting", "running", ...); the zero value is the empty string. -/
structure AMDPSessionState where
  sessionID : String := ""
  mainID : String := ""
  objectURI : String := ""
  status : String := ""
  currentLine : Int := 0
  currentProc : String := ""
deriving DecidableEq, Repr

/-- The zero value `AMDPSessionState{}` that `cleanup` resets to. -/
def emptyState : AMDPSessionState := {}

/-- The mutable fields of `AMDPSessionManager` that the claims concern:
the running flag, the session state, whether `cmdChannel` is allocated
and open, and the stored CSRF token.  (The HTTP client, base URL and SAP
client string are configuration constants irrelevant to the claims.) -/
structure Manager where
  running : Bool := false
  state : AMDPSessionState := {}
  cmdChannelOpen : Bool := false
  csrfToken : String := ""
deriving DecidableEq, Repr

/-- Accessor `IsRunning` (lock-protected read of the running flag). -/
def IsRunning (m : Manager) : Bool :=
  m.running

/-- Accessor `State` (lock-protected copy of the session state). -/
def State (m : Manager) : AMDPSessionState :=
  m.state

/-- The individual remote operations the manager can issue, used to trace
which HTTP requests a code path performs. -/
inductive RemoteCall
  | fetchToken
  | startSession
  | stepCall
  | getStatusCall
  | getVariablesCall
  | getBreakpointsCall
  | setBreakpointCall
  | stopSessionCall
  | hardStop
  | keepaliveCall
deriving DecidableEq, Repr

/-- Failure modes of `fetchCSRFToken`: the HTTP request itself failed, or
it succeeded but the `X-CSRF-Token` response header was empty or the
literal `"unsafe"`. -/
inductive TokenErr
  | transport
  | badToken
deriving DecidableEq, Repr

/-- Failure modes of `initiateSession`: transport error, a status code
other than 200/201, or an XML body that fails to unmarshal. -/
inductive SessionErr
  | transport
  | badStatus (code : Nat) (body : String)
  | parseFailed (body : String)
deriving DecidableEq, Repr

/-- Errors returned by `Start`: "AMDP session already active", a wrapped
CSRF-token failure ("failed to fetch CSRF token: %w", the spec's
`AuthFailure`), or a wrapped session-creation failure ("failed to start
AMDP session: %w", the spec's `RemoteOperationFailure`). -/
inductive StartErr
  | alreadyActive
  | tokenFetch (e : TokenErr)
  | sessionStart (e : SessionErr)
deriving DecidableEq, Repr

/-- Outcome of the HEAD discovery request of `fetchCSRFToken`: the value
of the `X-CSRF-Token` response header (`resp.Header.Get` returns the empty
string when the header is absent). -/
structure TokenResp where
  header : String
deriving DecidableEq, Repr

/-- Outcome of the POST of `initiateSession`: status code, raw body and
the result of `xml.Unmarshal` on the body — `some (sessionID, mainID)`
when unmarshalling succeeds (absent elements unmarshal to the empty
string), `none` when it fails. -/
structure SessionResp where
  statusCode : Nat := 200
  body : String := ""
  parsed : Option (String × String) := none
deriving DecidableEq, Repr

/-- Environment for one `Start` call: the outcome of the token request
and of the session-creation request (`none` = transport-level error). -/
structure StartEnv where
  tokenResp : Option TokenResp := none
  sessionResp : Option SessionResp := none
deriving DecidableEq, Repr

/-- Function `fetchCSRFToken`: issues the HEAD discovery request, stores the
returned header in `m.csrfToken` (the store happens before the
validity check, exactly as in the source), and fails when the header is
empty or `"unsafe"`. -/
def fetchCSRFToken (m : Manager) (resp : Option TokenResp) :
    Manager × Option TokenErr :=
  match resp with
  | none => (m, some TokenErr.transport)
  | some r =>
    let m' := { m with csrfToken := r.header }
    if r.header = "" ∨ r.header = "unsafe" then
      (m', some TokenErr.badToken)
    else
      (m', none)

/-- Function `initiateSession`: POSTs the start configuration; accepts status
200 or 201; unmarshals the body; on success writes `sessionID`, `mainID`
and sets `status` to `"running"` under the lock. -/
def initiateSession (m : Manager) (resp : Option SessionResp) :
    Manager × Option SessionErr :=
  match resp with
  | none => (m, some SessionErr.transport)
  | some r =>
    if r.statusCode ≠ 200 ∧ r.statusCode ≠ 201 then
      (m, some (SessionErr.badStatus r.statusCode r.body))
    else
      match r.parsed with
      | none => (m, some (SessionErr.parseFailed r.body))
      | some (sid, mid) =>
        ({ m with state :=
            { m.state with sessionID := sid, mainID := mid, status := "running" } },
         none)

/-- Result of a `Start` call: the manager afterwards, the returned error
(if any), the remote calls issued, and whether the worker goroutine was
spawned. -/
structure StartResult where
  mgr : Manager
  err : Option StartErr
  calls : List RemoteCall
  workerSpawned : Bool
deriving DecidableEq, Repr

/-- Function `Start`: under the lock, rejects when already running; otherwise sets
the running flag, allocates the command channel and resets the state to
`{ObjectURI: objectURI, Status: "starting"}`; then fetches the CSRF token
(on failure unwinds the running flag and returns the wrapped error without
spawning a worker), then creates the remote session (same unwinding on
failure), and finally spawns the worker goroutine. -/
def Start (m : Manager) (objectURI : String) (env : StartEnv) : StartResult :=
  if m.running then
    ⟨m, some StartErr.alreadyActive, [], false⟩
  else
    let m1 : Manager :=
      { m with running := true, cmdChannelOpen := true,
               state := { objectURI := objectURI, status := "starting" } }
    match fetchCSRFToken m1 env.tokenResp with
    | (m2, some e) =>
      ⟨{ m2 with running := false }, some (StartErr.tokenFetch e),
       [RemoteCall.fetchToken], false⟩
    | (m2, none) =>
      match initiateSession m2 env.sessionResp with
      | (m3, some e) =>
        ⟨{ m3 with running := false }, some (StartErr.sessionStart e),
         [RemoteCall.fetchToken, RemoteCall.startSession], false⟩
      | (m3, none) =>
        ⟨m3, none, [RemoteCall.fetchToken, RemoteCall.startSession], true⟩

/-- Per-command errors produced while dispatching a command: the
"no active session" guard, a transport-level HTTP error, a rejected
status code with the response body, or the `default` branch of
`handleCommand` ("unknown command"). -/
inductive CmdErr
  | noActiveSession
  | transport
  | remoteStatus (code : Nat) (body : String)
  | unknownCommand
deriving DecidableEq, Repr

/-- The `Data` payload of an `AMDPResponse`: nothing, the step-result map
`{stepType, response}`, a copy of the session state (GetStatus), or the
raw response body wrapped in a one-element list (GetVariables /
GetBreakpoints). -/
inductive RespData
  | nodata
  | stepResult (stepType body : String)
  | stateSnapshot (s : AMDPSessionState)
  | rawBody (body : String)
deriving DecidableEq, Repr

/-- Record `AMDPResponse` from the source: `Success` is `err == nil`. -/
structure AMDPResponse where
  success : Bool := false
  data : RespData := RespData.nodata
  error : Option CmdErr := none
deriving DecidableEq, Repr

/-- Errors returned by `SendCommand` itself: "AMDP session not running",
"command channel timeout" (5s enqueue bound) and "command response
timeout" (60s reply bound). -/
inductive SendErr
  | notRunning
  | queueTimeout
  | responseTimeout
deriving DecidableEq, Repr

/-- Whether the enqueue select of `SendCommand` sent the command before
its 5-second timeout fired. -/
inductive EnqueueOutcome
  | sent
  | timedOut
deriving DecidableEq, Repr

/-- Whether the reply select of `SendCommand` received a response before
its 60-second timeout fired. -/
inductive ReplyOutcome
  | received (r : AMDPResponse)
  | timedOut
deriving DecidableEq, Repr

/-- Environment for one `SendCommand` call: the outcome of its two
bounded waits. -/
structure SendEnv where
  enq : EnqueueOutcome := EnqueueOutcome.sent
  rep : ReplyOutcome := ReplyOutcome.timedOut
deriving DecidableEq, Repr

/-- Result of a `SendCommand` call: the `(AMDPResponse, error)` pair,
whether the command was actually enqueued onto the command channel, and
the remote calls issued by `SendCommand` itself (always none: the caller
side performs no HTTP request). -/
structure SendResult where
  resp : AMDPResponse
  err : Option SendErr
  enqueued : Bool
  calls : List RemoteCall
deriving DecidableEq, Repr

/-- Function `SendCommand`: fails fast with "AMDP session not running" when the
running flag is clear — before allocating a reply channel or touching the
command channel; otherwise allocates a fresh buffered reply channel of
capacity 1, enqueues with a 5s bound, and waits for the reply with a 60s
bound. -/
def SendCommand (m : Manager) (t : AMDPCommandType) (a : Args)
    (env : SendEnv) : SendResult :=
  if m.running = false then
    ⟨{}, some SendErr.notRunning, false, []⟩
  else
    match env.enq with
    | EnqueueOutcome.timedOut => ⟨{}, some SendErr.queueTimeout, false, []⟩
    | EnqueueOutcome.sent =>
      match env.rep with
      | ReplyOutcome.received r => ⟨r, none, true, []⟩
      | ReplyOutcome.timedOut => ⟨{}, some SendErr.responseTimeout, true, []⟩

/-- Outcome of the single HTTP request a dispatched command performs. -/
structure CmdEnv where
  httpErr : Bool := false
  statusCode : Nat := 200
  body : String := ""
deriving DecidableEq, Repr

/-- A command as the worker receives it from the command channel: its
type and extracted arguments, an identifier of its private reply channel,
the outcome of its remote request, and whether dispatching it panics
(modelling an unexpected fault inside `handleCommand`). -/
structure WCommand where
  type : AMDPCommandType
  args : Args := {}
  slot : Nat := 0
  env : CmdEnv := {}
  panics : Bool := false
deriving DecidableEq, Repr

/-- Operation `step`: requires a non-empty `mainID` (else "no active session" with
no HTTP request); POSTs the step configuration; only status 200 is
accepted; on success returns the `{stepType, response}` result map.  The
session state is not written. -/
def stepOp (m : Manager) (stepType : String) (env : CmdEnv) :
    AMDPResponse × List RemoteCall :=
  if m.state.mainID = "" then
    ({ error := some CmdErr.noActiveSession }, [])
  else if env.httpErr then
    ({ error := some CmdErr.transport }, [RemoteCall.stepCall])
  else if env.statusCode ≠ 200 then
    ({ error := some (CmdErr.remoteStatus env.statusCode env.body) },
     [RemoteCall.stepCall])
  else
    ({ success := true, data := RespData.stepResult stepType env.body },
     [RemoteCall.stepCall])

/-- Operation `getStatus`: requires a non-empty `mainID`; GETs the session; only
status 200 accepted; on success returns a copy of the manager's own
current state (the remote body is not parsed and no state field is
written). -/
def getStatusOp (m : Manager) (env : CmdEnv) :
    AMDPResponse × List RemoteCall :=
  if m.state.mainID = "" then
    ({ error := some CmdErr.noActiveSession }, [])
  else if env.httpErr then
    ({ error := some CmdErr.transport }, [RemoteCall.getStatusCall])
  else if env.statusCode ≠ 200 then
    ({ error := some (CmdErr.remoteStatus env.statusCode env.body) },
     [RemoteCall.getStatusCall])
  else
    ({ success := true, data := RespData.stateSnapshot m.state },
     [RemoteCall.getStatusCall])

/-- Operation `getVariables`: requires a non-empty `mainID`; GETs the variables
resource; only status 200 accepted; returns the raw body. -/
def getVariablesOp (m : Manager) (env : CmdEnv) :
    AMDPResponse × List RemoteCall :=
  if m.state.mainID = "" then
    ({ error := some CmdErr.noActiveSession }, [])
  else if env.httpErr then
    ({ error := some CmdErr.transport }, [RemoteCall.getVariablesCall])
  else if env.statusCode ≠ 200 then
    ({ error := some (CmdErr.remoteStatus env.statusCode env.body) },
     [RemoteCall.getVariablesCall])
  else
    ({ success := true, data := RespData.rawBody env.body },
     [RemoteCall.getVariablesCall])

/-- Operation `getBreakpoints`: same shape as `getVariables` on the breakpoints
resource. -/
def getBreakpointsOp (m : Manager) (env : CmdEnv) :
    AMDPResponse × List RemoteCall :=
  if m.state.mainID = "" then
    ({ error := some CmdErr.noActiveSession }, [])
  else if env.httpErr then
    ({ error := some CmdErr.transport }, [RemoteCall.getBreakpointsCall])
  else if env.statusCode ≠ 200 then
    ({ error := some (CmdErr.remoteStatus env.statusCode env.body) },
     [RemoteCall.getBreakpointsCall])
  else
    ({ success := true, data := RespData.rawBody env.body },
     [RemoteCall.getBreakpointsCall])

/-- Operation `setBreakpoint`: requires a non-empty `mainID`; POSTs the breakpoint;
accepts status 200 or 201. -/
def setBreakpointOp (m : Manager) (env : CmdEnv) :
    AMDPResponse × List RemoteCall :=
  if m.state.mainID = "" then
    ({ error := some CmdErr.noActiveSession }, [])
  else if env.httpErr then
    ({ error := some CmdErr.transport }, [RemoteCall.setBreakpointCall])
  else if env.statusCode ≠ 200 ∧ env.statusCode ≠ 201 then
    ({ error := some (CmdErr.remoteStatus env.statusCode env.body) },
     [RemoteCall.setBreakpointCall])
  else
    ({ success := true }, [RemoteCall.setBreakpointCall])

/-- Operation `stopSession`: with an empty `mainID` it succeeds without any HTTP
request ("already stopped"); otherwise DELETEs the session, accepting
status 200, 204 or 404. -/
def stopSessionOp (m : Manager) (env : CmdEnv) :
    AMDPResponse × List RemoteCall :=
  if m.state.mainID = "" then
    ({ success := true }, [])
  else if env.httpErr then
    ({ error := some CmdErr.transport }, [RemoteCall.stopSessionCall])
  else if env.statusCode ≠ 200 ∧ env.statusCode ≠ 204 ∧ env.statusCode ≠ 404 then
    ({ error := some (CmdErr.remoteStatus env.statusCode env.body) },
     [RemoteCall.stopSessionCall])
  else
    ({ success := true }, [RemoteCall.stopSessionCall])

/-- Function `handleCommand`: dispatches one command to the matching remote
operation.  It returns the manager as well: in the source none of the
dispatched operations writes any manager field, which the identity of the
returned manager in every branch records (proved below as
`handleCommand_mgr_eq`).  `AMDPCmdStart` hits the `default` branch
("unknown command"). -/
def handleCommand (m : Manager) (c : WCommand) :
    Manager × AMDPResponse × List RemoteCall :=
  match c.type with
  | AMDPCommandType.step => (m, stepOp m c.args.stepType c.env)
  | AMDPCommandType.getStatus => (m, getStatusOp m c.env)
  | AMDPCommandType.getVariables => (m, getVariablesOp m c.env)
  | AMDPCommandType.getBreakpoints => (m, getBreakpointsOp m c.env)
  | AMDPCommandType.setBreakpoint => (m, setBreakpointOp m c.env)
  | AMDPCommandType.stop => (m, stopSessionOp m c.env)
  | AMDPCommandType.start => (m, { error := some CmdErr.unknownCommand }, [])

/-- The non-blocking reply delivery of the worker
(`select { case cmd.Response <- resp: ... default: }`): `slots` maps each
reply-channel identifier to the number of responses currently buffered in
it; the channels have capacity 1, so the send succeeds exactly when the
buffer is empty and is silently dropped otherwise.  The function is total:
delivery never blocks the worker. -/
def trySend (slots : Nat → Nat) (id : Nat) : Nat → Nat :=
  if slots id = 0 then
    fun j => if j = id then 1 else slots j
  else
    slots

/-- One iteration's input to the worker's select: context cancellation,
a keepalive tick, a command received from the channel, or observing the
channel closed. -/
inductive WorkerEvent
  | ctxDone
  | tick
  | recv (c : WCommand)
  | closedChannel
deriving DecidableEq, Repr

/-- Why (or whether) the worker's loop exited. `stillWaiting` means the
event trace ended with the worker still blocked in its select — the loop
has not exited and the deferred cleanup has not run. -/
inductive ExitReason
  | cancelled
  | channelClosed
  | stopCmd
  | panicked
  | stillWaiting
deriving DecidableEq, Repr

/-- Result of running the worker's event loop on a trace of select
outcomes. -/
structure LoopRes where
  mgr : Manager
  slots : Nat → Nat
  calls : List RemoteCall
  exit : ExitReason

/-- The worker's event loop (the `for`/`select` of `processCommands`):
`ctx.Done()` and a closed channel exit immediately; a keepalive tick
issues a best-effort ping when `mainID` is non-empty (its result
ignored); a received command is dispatched — a panic during dispatch
aborts the loop without delivering a reply — then its response is
delivered with the non-blocking send, and a `Stop` command exits the loop
after the reply is delivered. -/
def runLoop (m : Manager) (slots : Nat → Nat) :
    List WorkerEvent → LoopRes
  | [] => ⟨m, slots, [], ExitReason.stillWaiting⟩
  | WorkerEvent.ctxDone :: _ => ⟨m, slots, [], ExitReason.cancelled⟩
  | WorkerEvent.closedChannel :: _ => ⟨m, slots, [], ExitReason.channelClosed⟩
  | WorkerEvent.tick :: es =>
    let kcalls : List RemoteCall :=
      if m.state.mainID = "" then [] else [RemoteCall.keepaliveCall]
    let r := runLoop m slots es
    ⟨r.mgr, r.slots, kcalls ++ r.calls, r.exit⟩
  | WorkerEvent.recv c :: es =>
    if c.panics then
      ⟨m, slots, [], ExitReason.panicked⟩
    else
      let h := handleCommand m c
      let slots' := trySend slots c.slot
      if c.type = AMDPCommandType.stop then
        ⟨h.1, slots', h.2.2, ExitReason.stopCmd⟩
      else
        let r := runLoop h.1 slots' es
        ⟨r.mgr, r.slots, h.2.2 ++ r.calls, r.exit⟩

/-- The manager after `cleanup`: running flag cleared, state reset to the
zero value, command channel closed and set to nil. -/
def cleanupMgr (m : Manager) : Manager :=
  { m with running := false, state := {}, cmdChannelOpen := false }

/-- The remote calls `cleanup` issues: a single best-effort hard-stop
(result ignored) exactly when `mainID` is non-empty at cleanup time. -/
def cleanupCalls (m : Manager) : List RemoteCall :=
  if m.state.mainID = "" then [] else [RemoteCall.hardStop]

/-- Result of a complete worker run: final manager, reply-buffer
occupancy, all remote calls issued, exit reason, and how many times the
cleanup body ran. -/
structure RunRes where
  mgr : Manager
  slots : Nat → Nat
  calls : List RemoteCall
  exit : ExitReason
  cleanups : Nat

/-- Function `processCommands`: runs the event loop with every reply buffer
initially empty (each `SendCommand` allocates its channel fresh), then —
whenever the loop actually exited — runs the deferred `cleanup` exactly
once (the `defer`/`recover` at the top of the goroutine). -/
def processCommands (m : Manager) (events : List WorkerEvent) : RunRes :=
  let l := runLoop m (fun _ => 0) events
  if l.exit = ExitReason.stillWaiting then
    ⟨l.mgr, l.slots, l.calls, l.exit, 0⟩
  else
    ⟨cleanupMgr l.mgr, l.slots, l.calls ++ cleanupCalls l.mgr, l.exit, 1⟩

/-- Whether the token acquisition of `Start` fails for the environment:
either the HEAD request errors at transport level, or the returned
`X-CSRF-Token` header is empty or the literal `"unsafe"`. -/
def tokenFetchFails (env : StartEnv) : Bool :=
  match env.tokenResp with
  | none => true
  | some r => (r.header == "") || (r.header == "unsafe")

/-- Whether a `Start` error is the wrapped token-fetch failure
("failed to fetch CSRF token: %w"), the error class the spec names
`AuthFailure`. -/
def isTokenFetchErr : Option StartErr → Bool
  | some (StartErr.tokenFetch _) => true
  | _ => false

/-- The statuses the spec groups as "mainID must be non-empty": Running,
AtBreakpoint, Stopping, rendered as the source's status strings
(`"running"`, `"breakpoint"`, `"stopping"`). -/
def statusActive (s : String) : Bool :=
  (s == "running") || (s == "breakpoint") || (s == "stopping")

/-- The spec's data-model invariant: `mainID` is non-empty iff the status
is one of Running / AtBreakpoint / Stopping. -/
def mainIDInv (s : AMDPSessionState) : Prop :=
  s.mainID ≠ "" ↔ statusActive s.status = true

instance (s : AMDPSessionState) : Decidable (mainIDInv s) := by
  unfold mainIDInv
  infer_instance

/-- Whether session creation in the environment, if it succeeds, yields a
non-empty `mainId` element in the parsed XML. -/
def sessionMainIDNonEmpty (env : StartEnv) : Bool :=
  match env.sessionResp with
  | some r =>
    match r.parsed with
    | some (_, mid) => !(mid == "")
    | none => true
  | none => true

/-- A manager with a live session, as left behind by a successful
`Start` (concrete instance used to evaluate the theorems). -/
def mLive : Manager :=
  { running := true, cmdChannelOpen := true, csrfToken := "tok",
    state := { sessionID := "S1", mainID := "M1", objectURI := "obj",
               status := "running" } }

/-- A concrete step-over command whose remote request succeeds and whose
response body reports a breakpoint hit. -/
def stepOverCmd : WCommand :=
  { type := AMDPCommandType.step, args := { stepType := "stepOver" },
    slot := 7, env := { body := "stopped at procedure CALC line 42" } }

/-- A concrete command whose dispatch panics. -/
def panicCmd : WCommand :=
  { type := AMDPCommandType.getVariables, slot := 3, panics := true }

/-- A concrete GetStatus command whose remote request succeeds. -/
def getStatusCmd : WCommand :=
  { type := AMDPCommandType.getStatus, slot := 8, env := { body := "ignored" } }

/-- An environment in which both remote requests of `Start` succeed and
the session XML carries non-empty ids. -/
def envGoodStart : StartEnv :=
  { tokenResp := some ⟨"tok"⟩,
    sessionResp := some { statusCode := 200, body := "xml",
                          parsed := some ("S1", "M1") } }

/-- An environment in which the token HEAD request fails at transport
level. -/
def envNoToken : StartEnv :=
  { tokenResp := none, sessionResp := none }

/-- An environment in which the token HEAD request succeeds but the
`X-CSRF-Token` header is empty. -/
def envEmptyHeader : StartEnv :=
  { tokenResp := some ⟨""⟩, sessionResp := none }

/-- An environment in which session creation succeeds (status 200, XML
parses) but the parsed `mainId` element is empty. -/
def envEmptyMainID : StartEnv :=
  { tokenResp := some ⟨"tok"⟩,
    sessionResp := some { statusCode := 200, body := "xml",
                          parsed := some ("S1", "") } }

/-! Helper lemmas about the worker loop and cleanup. -/

/-- None of the dispatched operations writes any manager field. -/
theorem handleCommand_mgr_eq (m : Manager) (c : WCommand) :
    (handleCommand m c).1 = m := by
  obtain ⟨ty, args, slot, env, pa⟩ := c
  cases ty <;> rfl

/-- The event loop never mutates the manager: every write to the session
state happens in `Start`, `initiateSession` or `cleanup`. -/
theorem runLoop_mgr_eq (es : List WorkerEvent) :
    ∀ (m : Manager) (slots : Nat → Nat), (runLoop m slots es).mgr = m := by
  induction es with
  | nil => intro m slots; rfl
  | cons e es ih =>
    intro m slots
    cases e with
    | ctxDone => rfl
    | closedChannel => rfl
    | tick => simpa [runLoop] using ih m slots
    | recv c =>
      cases hp : c.panics with
      | true => simp [runLoop, hp]
      | false =>
        by_cases hs : c.type = AMDPCommandType.stop
        · simp [runLoop, hp, hs, handleCommand_mgr_eq]
        · simp [runLoop, hp, hs, ih, handleCommand_mgr_eq]

/-- The non-blocking send keeps every capacity-1 reply buffer at
occupancy at most 1. -/
theorem trySend_le (slots : Nat → Nat) (id : Nat)
    (h : ∀ i, slots i ≤ 1) (i : Nat) : trySend slots id i ≤ 1 := by
  unfold trySend
  split
  · by_cases hi : i = id <;> simp [hi, h i]
  · exact h i

/-- Occupancy bound preserved across the whole loop. -/
theorem runLoop_slots_le (es : List WorkerEvent) :
    ∀ (m : Manager) (slots : Nat → Nat), (∀ i, slots i ≤ 1) →
      ∀ i, (runLoop m slots es).slots i ≤ 1 := by
  induction es with
  | nil => intro m slots h i; exact h i
  | cons e es ih =>
    intro m slots h i
    cases e with
    | ctxDone => exact h i
    | closedChannel => exact h i
    | tick => simpa [runLoop] using ih m slots h i
    | recv c =>
      cases hp : c.panics with
      | true => simpa [runLoop, hp] using h i
      | false =>
        by_cases hs : c.type = AMDPCommandType.stop
        · simpa [runLoop, hp, hs] using trySend_le slots c.slot h i
        · simpa [runLoop, hp, hs] using ih _ _ (trySend_le slots c.slot h) i

/-- Operation `step` never issues the hard-stop request. -/
theorem stepOp_no_hardStop (m : Manager) (st : String) (env : CmdEnv) :
    RemoteCall.hardStop ∉ (stepOp m st env).2 := by
  unfold stepOp
  repeat' split
  all_goals simp

/-- Operation `getStatus` never issues the hard-stop request. -/
theorem getStatusOp_no_hardStop (m : Manager) (env : CmdEnv) :
    RemoteCall.hardStop ∉ (getStatusOp m env).2 := by
  unfold getStatusOp
  repeat' split
  all_goals simp

/-- Operation `getVariables` never issues the hard-stop request. -/
theorem getVariablesOp_no_hardStop (m : Manager) (env : CmdEnv) :
    RemoteCall.hardStop ∉ (getVariablesOp m env).2 := by
  unfold getVariablesOp
  repeat' split
  all_goals simp

/-- Operation `getBreakpoints` never issues the hard-stop request. -/
theorem getBreakpointsOp_no_hardStop (m : Manager) (env : CmdEnv) :
    RemoteCall.hardStop ∉ (getBreakpointsOp m env).2 := by
  unfold getBreakpointsOp
  repeat' split
  all_goals simp

/-- Operation `setBreakpoint` never issues the hard-stop request. -/
theorem setBreakpointOp_no_hardStop (m : Manager) (env : CmdEnv) :
    RemoteCall.hardStop ∉ (setBreakpointOp m env).2 := by
  unfold setBreakpointOp
  repeat' split
  all_goals simp

/-- Operation `stopSession` (the graceful DELETE) is not the hard-stop request. -/
theorem stopSessionOp_no_hardStop (m : Manager) (env : CmdEnv) :
    RemoteCall.hardStop ∉ (stopSessionOp m env).2 := by
  unfold stopSessionOp
  repeat' split
  all_goals simp

/-- Command dispatch never issues the hard-stop request. -/
theorem handleCommand_no_hardStop (m : Manager) (c : WCommand) :
    RemoteCall.hardStop ∉ (handleCommand m c).2.2 := by
  obtain ⟨ty, args, slot, env, pa⟩ := c
  cases ty with
  | start => simp [handleCommand]
  | stop => exact stopSessionOp_no_hardStop m env
  | step => exact stepOp_no_hardStop m args.stepType env
  | getStatus => exact getStatusOp_no_hardStop m env
  | getVariables => exact getVariablesOp_no_hardStop m env
  | setBreakpoint => exact setBreakpointOp_no_hardStop m env
  | getBreakpoints => exact getBreakpointsOp_no_hardStop m env

/-- The event loop itself never issues the hard-stop request: only
cleanup does. -/
theorem runLoop_no_hardStop (es : List WorkerEvent) :
    ∀ (m : Manager) (slots : Nat → Nat),
      RemoteCall.hardStop ∉ (runLoop m slots es).calls := by
  induction es with
  | nil => intro m slots; simp [runLoop]
  | cons e es ih =>
    intro m slots
    cases e with
    | ctxDone => simp [runLoop]
    | closedChannel => simp [runLoop]
    | tick =>
      have hh := ih m slots
      simp only [runLoop, List.mem_append]
      intro hmem
      rcases hmem with hk | hr
      · revert hk; split <;> simp
      · exact hh hr
    | recv c =>
      cases hp : c.panics with
      | true => simp [runLoop, hp]
      | false =>
        have hc := handleCommand_no_hardStop m c
        by_cases hs : c.type = AMDPCommandType.stop
        · simp only [runLoop, hp, Bool.false_eq_true, if_false, if_pos hs]
          exact hc
        · have hh := ih (handleCommand m c).1 (trySend slots c.slot)
          simp only [runLoop, hp, Bool.false_eq_true, if_false, if_neg hs,
            List.mem_append]
          intro hmem
          rcases hmem with hk | hr
          · exact hc hk
          · exact hh hr

/-- Cleanup issues at most one hard-stop. -/
theorem cleanupCalls_count (m : Manager) :
    (cleanupCalls m).count RemoteCall.hardStop ≤ 1 := by
  unfold cleanupCalls
  split <;> simp

/-- Cleanup issues the hard-stop exactly when `mainID` is non-empty. -/
theorem cleanupCalls_mem (m : Manager) :
    RemoteCall.hardStop ∈ cleanupCalls m ↔ m.state.mainID ≠ "" := by
  unfold cleanupCalls
  split <;> simp_all

/-- When the loop exited, the complete run is the loop followed by one
cleanup of the (unchanged) manager. -/
theorem processCommands_exited (m : Manager) (events : List WorkerEvent)
    (h : (runLoop m (fun _ => 0) events).exit ≠ ExitReason.stillWaiting) :
    processCommands m events =
      ⟨cleanupMgr m, (runLoop m (fun _ => 0) events).slots,
       (runLoop m (fun _ => 0) events).calls ++ cleanupCalls m,
       (runLoop m (fun _ => 0) events).exit, 1⟩ := by
  simp only [processCommands]
  rw [if_neg h, runLoop_mgr_eq]

/-- The run's exit reason is the loop's exit reason. -/
theorem processCommands_exit (m : Manager) (events : List WorkerEvent) :
    (processCommands m events).exit = (runLoop m (fun _ => 0) events).exit := by
  simp only [processCommands]
  split <;> rfl

/-- If the loop is still waiting after `es1`, running it on `es1 ++ es2`
continues from where `es1` left off. -/
theorem runLoop_append (es1 : List WorkerEvent) :
    ∀ (m : Manager) (slots : Nat → Nat) (es2 : List WorkerEvent),
      (runLoop m slots es1).exit = ExitReason.stillWaiting →
      runLoop m slots (es1 ++ es2) =
        ⟨(runLoop (runLoop m slots es1).mgr (runLoop m slots es1).slots es2).mgr,
         (runLoop (runLoop m slots es1).mgr (runLoop m slots es1).slots es2).slots,
         (runLoop m slots es1).calls ++
           (runLoop (runLoop m slots es1).mgr (runLoop m slots es1).slots es2).calls,
         (runLoop (runLoop m slots es1).mgr (runLoop m slots es1).slots es2).exit⟩ := by
  induction es1 with
  | nil =>
    intro m slots es2 _
    simp [runLoop]
  | cons e es1 ih =>
    intro m slots es2 h
    cases e with
    | ctxDone => simp [runLoop] at h
    | closedChannel => simp [runLoop] at h
    | tick =>
      have h' : (runLoop m slots es1).exit = ExitReason.stillWaiting := by
        simpa [runLoop] using h
      simp [runLoop, ih m slots es2 h', List.append_assoc]
    | recv c =>
      cases hp : c.panics with
      | true => simp [runLoop, hp] at h
      | false =>
        by_cases hs : c.type = AMDPCommandType.stop
        · simp [runLoop, hp, hs] at h
        · have h' : (runLoop (handleCommand m c).1 (trySend slots c.slot)
              es1).exit = ExitReason.stillWaiting := by
            simpa [runLoop, hp, hs] using h
          simp [runLoop, hp, hs, ih _ _ es2 h', List.append_assoc]

/-- A complete run (loop plus cleanup) issues the hard-stop at most
once. -/
theorem run_calls_hardStop_le (m : Manager) (events : List WorkerEvent) :
    ((runLoop m (fun _ => 0) events).calls ++ cleanupCalls m).count
      RemoteCall.hardStop ≤ 1 := by
  rw [List.count_append,
    List.count_eq_zero.mpr (runLoop_no_hardStop events m (fun _ => 0))]
  simpa using cleanupCalls_count m

/-- The state `Start` installs before contacting the server is not the
zero value: its status is `"starting"`. -/
theorem startingState_ne_empty (u : String) :
    ({ emptyState with objectURI := u, status := "starting" } :
      AMDPSessionState) ≠ emptyState := by
  intro hcontra
  have h2 : "starting" = "" := congrArg AMDPSessionState.status hcontra
  exact absurd h2 (by decide)

/-- The invariant holds whenever `mainID` is empty and the status is not
an active one. -/
theorem mainIDInv_of_inactive (s : AMDPSessionState)
    (h1 : s.mainID = "") (h2 : statusActive s.status = false) :
    mainIDInv s := by
  constructor
  · intro hcon; exact absurd h1 hcon
  · intro hcon; rw [h2] at hcon; cases hcon

/-- The invariant holds whenever `mainID` is non-empty and the status is
an active one. -/
theorem mainIDInv_of_active (s : AMDPSessionState)
    (h1 : s.mainID ≠ "") (h2 : statusActive s.status = true) :
    mainIDInv s :=
  ⟨fun _ => h2, fun _ => h1⟩

/-- Function `Start` preserves the mainID/status invariant provided session
creation, when it succeeds, parses a non-empty `mainId`. -/
theorem Start_mainIDInv (m : Manager) (u : String) (env : StartEnv)
    (hInv : mainIDInv m.state) (hMid : sessionMainIDNonEmpty env = true) :
    mainIDInv (Start m u env).mgr.state := by
  by_cases hr : m.running
  · simpa [Start, hr] using hInv
  · cases henv : env.tokenResp with
    | none =>
      simp only [Start, hr, fetchCSRFToken, henv, if_neg]
      exact mainIDInv_of_inactive _ rfl rfl
    | some r =>
      by_cases hcond : r.header = "" ∨ r.header = "unsafe"
      · simp only [Start, hr, fetchCSRFToken, henv, if_pos hcond, if_neg]
        exact mainIDInv_of_inactive _ rfl rfl
      · cases henv2 : env.sessionResp with
        | none =>
          simp only [Start, hr, fetchCSRFToken, henv, if_neg hcond,
            initiateSession, henv2]
          exact mainIDInv_of_inactive _ rfl rfl
        | some sr =>
          by_cases hst : sr.statusCode ≠ 200 ∧ sr.statusCode ≠ 201
          · simp only [Start, hr, fetchCSRFToken, henv, if_neg hcond,
              initiateSession, henv2, if_pos hst]
            exact mainIDInv_of_inactive _ rfl rfl
          · cases hp : sr.parsed with
            | none =>
              simp only [Start, hr, fetchCSRFToken, henv, if_neg hcond,
                initiateSession, henv2, if_neg hst, hp]
              exact mainIDInv_of_inactive _ rfl rfl
            | some pr =>
              obtain ⟨sid, mid⟩ := pr
              have hmid : mid ≠ "" := by
                simpa [sessionMainIDNonEmpty, henv2, hp] using hMid
              simp only [Start, hr, fetchCSRFToken, henv, if_neg hcond,
                initiateSession, henv2, if_neg hst, hp]
              exact mainIDInv_of_active _ hmid rfl

/-- When `Start` fails on a non-running manager, the final manager has a
cleared running flag and the attempted state snapshot (objectURI set,
status `"starting"`). -/
theorem Start_failure_frame (m : Manager) (u : String) (env : StartEnv)
    (h0 : m.running = false) (h : (Start m u env).err ≠ none) :
    (Start m u env).mgr.running = false ∧
    (Start m u env).mgr.state =
      { emptyState with objectURI := u, status := "starting" } := by
  have hr : ¬ m.running = true := by simp [h0]
  cases henv : env.tokenResp with
  | none =>
    constructor <;>
      simp [Start, hr, fetchCSRFToken, henv, emptyState]
  | some r =>
    by_cases hcond : r.header = "" ∨ r.header = "unsafe"
    · constructor <;>
        simp [Start, hr, fetchCSRFToken, henv, if_pos hcond, emptyState]
    · cases henv2 : env.sessionResp with
      | none =>
        constructor <;>
          simp [Start, hr, fetchCSRFToken, henv, if_neg hcond,
            initiateSession, henv2, emptyState]
      | some sr =>
        by_cases hst : sr.statusCode ≠ 200 ∧ sr.statusCode ≠ 201
        · constructor <;>
            simp [Start, hr, fetchCSRFToken, henv, if_neg hcond,
              initiateSession, henv2, if_pos hst, emptyState]
        · cases hp : sr.parsed with
          | none =>
            constructor <;>
              simp [Start, hr, fetchCSRFToken, henv, if_neg hcond,
                initiateSession, henv2, if_neg hst, hp, emptyState]
          | some pr =>
            obtain ⟨sid, mid⟩ := pr
            exfalso
            apply h
            simp [Start, hr, fetchCSRFToken, henv, if_neg hcond,
              initiateSession, henv2, if_neg hst, hp]

/-! Claims. -/

/-- Claim C1: after the Session Worker exits for any reason (a Stop
command, context cancellation, or an internal fault), cleanup runs
exactly once per session: the remote hard-stop is invoked at most once
and only when `mainID` is non-empty (its errors ignored), the session
state is reset to the empty value, the running flag is cleared, and every
`SendCommand` call issued after cleanup returns NotRunning without being
enqueued. -/
theorem C1_cleanup_exactly_once (m : Manager) (events : List WorkerEvent)
    (h : (processCommands m events).exit ≠ ExitReason.stillWaiting) :
    (processCommands m events).cleanups = 1 ∧
    (processCommands m events).calls.count RemoteCall.hardStop ≤ 1 ∧
    (RemoteCall.hardStop ∈ (processCommands m events).calls ↔
      m.state.mainID ≠ "") ∧
    State (processCommands m events).mgr = emptyState ∧
    IsRunning (processCommands m events).mgr = false ∧
    ∀ (t : AMDPCommandType) (a : Args) (senv : SendEnv),
      (SendCommand (processCommands m events).mgr t a senv).err =
        some SendErr.notRunning ∧
      (SendCommand (processCommands m events).mgr t a senv).enqueued = false := by
  have hl : (runLoop m (fun _ => 0) events).exit ≠ ExitReason.stillWaiting := by
    rwa [processCommands_exit] at h
  rw [processCommands_exited m events hl]
  refine ⟨rfl, run_calls_hardStop_le m events, ?_, rfl, rfl, ?_⟩
  · rw [List.mem_append]
    constructor
    · intro hmem
      rcases hmem with hk | hk
      · exact absurd hk (runLoop_no_hardStop events m (fun _ => 0))
      · exact (cleanupCalls_mem m).mp hk
    · intro hm
      exact Or.inr ((cleanupCalls_mem m).mpr hm)
  · intro t a senv
    constructor <;> simp [SendCommand, cleanupMgr]

/-- Claim C1 witness: a live session cancelled externally. -/
theorem C1_cleanup_exactly_once_witness :
    (processCommands mLive [WorkerEvent.ctxDone]).exit ≠
      ExitReason.stillWaiting ∧
    ((processCommands mLive [WorkerEvent.ctxDone]).cleanups = 1 ∧
     (processCommands mLive [WorkerEvent.ctxDone]).calls.count
       RemoteCall.hardStop ≤ 1 ∧
     (RemoteCall.hardStop ∈ (processCommands mLive [WorkerEvent.ctxDone]).calls ↔
       mLive.state.mainID ≠ "") ∧
     State (processCommands mLive [WorkerEvent.ctxDone]).mgr = emptyState ∧
     IsRunning (processCommands mLive [WorkerEvent.ctxDone]).mgr = false ∧
     ∀ (t : AMDPCommandType) (a : Args) (senv : SendEnv),
       (SendCommand (processCommands mLive [WorkerEvent.ctxDone]).mgr t a
         senv).err = some SendErr.notRunning ∧
       (SendCommand (processCommands mLive [WorkerEvent.ctxDone]).mgr t a
         senv).enqueued = false) :=
  ⟨by decide, C1_cleanup_exactly_once mLive [WorkerEvent.ctxDone] (by decide)⟩

/-- Claim C2: for every manager on which a session is already active,
`Start` returns the AlreadyRunning error and leaves the existing
session's state — in particular its `mainID` — unchanged. -/
theorem C2_start_while_running (m : Manager) (u : String) (env : StartEnv)
    (h : IsRunning m = true) :
    (Start m u env).err = some StartErr.alreadyActive ∧
    (Start m u env).mgr = m ∧
    (State (Start m u env).mgr).mainID = (State m).mainID := by
  have hr : m.running = true := h
  refine ⟨?_, ?_, ?_⟩ <;> simp [Start, hr, State]

/-- Claim C2 witness: a second `Start` against a live session. -/
theorem C2_start_while_running_witness :
    IsRunning mLive = true ∧
    ((Start mLive "other" envGoodStart).err = some StartErr.alreadyActive ∧
     (Start mLive "other" envGoodStart).mgr = mLive ∧
     (State (Start mLive "other" envGoodStart).mgr).mainID =
       (State mLive).mainID) :=
  ⟨by decide, C2_start_while_running mLive "other" envGoodStart (by decide)⟩

/-- Claim C3: for every manager with `IsRunning() == false`, `SendCommand`
of any command type and any arguments returns the NotRunning error
immediately, the command is never enqueued for the worker, and no remote
call is issued. -/
theorem C3_send_while_not_running (m : Manager) (t : AMDPCommandType)
    (a : Args) (env : SendEnv) (h : IsRunning m = false) :
    SendCommand m t a env = ⟨{}, some SendErr.notRunning, false, []⟩ := by
  have hr : m.running = false := h
  simp [SendCommand, hr]

/-- Claim C3 witness: a GetVariables command against a fresh manager. -/
theorem C3_send_while_not_running_witness :
    IsRunning ({} : Manager) = false ∧
    SendCommand ({} : Manager) AMDPCommandType.getVariables {} {} =
      ⟨{}, some SendErr.notRunning, false, []⟩ :=
  ⟨by decide,
   C3_send_while_not_running ({} : Manager) AMDPCommandType.getVariables
     {} {} (by decide)⟩

/-- Claim C4: if the anti-replay token fetch fails during `Start`, then
`Start` returns the wrapped token-fetch error (the spec's AuthFailure),
the running flag is unwound so `IsRunning()` is false afterwards, no
Session Worker is spawned, and the StartSession remote call is never
attempted. -/
theorem C4_token_fetch_failure (m : Manager) (u : String) (env : StartEnv)
    (h0 : IsRunning m = false) (h : tokenFetchFails env = true) :
    isTokenFetchErr (Start m u env).err = true ∧
    IsRunning (Start m u env).mgr = false ∧
    (Start m u env).workerSpawned = false ∧
    RemoteCall.startSession ∉ (Start m u env).calls := by
  have h0' : m.running = false := h0
  have hr : ¬ m.running = true := by
    intro hcon; rw [h0'] at hcon; cases hcon
  cases henv : env.tokenResp with
  | none =>
    refine ⟨?_, ?_, ?_, ?_⟩ <;>
      simp [Start, hr, fetchCSRFToken, henv, isTokenFetchErr, IsRunning]
  | some r =>
    have hcond : r.header = "" ∨ r.header = "unsafe" := by
      have hh := h
      simp only [tokenFetchFails, henv, Bool.or_eq_true, beq_iff_eq] at hh
      exact hh
    refine ⟨?_, ?_, ?_, ?_⟩ <;>
      simp [Start, hr, fetchCSRFToken, henv, if_pos hcond, isTokenFetchErr,
        IsRunning]

/-- Claim C4 witness: the token HEAD request fails at transport level. -/
theorem C4_token_fetch_failure_witness :
    IsRunning ({} : Manager) = false ∧
    tokenFetchFails envNoToken = true ∧
    (isTokenFetchErr (Start ({} : Manager) "obj" envNoToken).err = true ∧
     IsRunning (Start ({} : Manager) "obj" envNoToken).mgr = false ∧
     (Start ({} : Manager) "obj" envNoToken).workerSpawned = false ∧
     RemoteCall.startSession ∉ (Start ({} : Manager) "obj" envNoToken).calls) :=
  ⟨by decide, by decide,
   C4_token_fetch_failure ({} : Manager) "obj" envNoToken (by decide)
     (by decide)⟩

/-- Claim C5: every `SendCommand` call's private reply slot receives
exactly zero or one response, never more than one, over any worker run.
Each slot is a fresh channel of capacity 1 and the worker delivers with
the total (never-blocking) `trySend`, so even an abandoned slot's
occupancy stays at most 1 and delivery never stalls the worker. -/
theorem C5_reply_slot_at_most_one (m : Manager) (events : List WorkerEvent)
    (id : Nat) : (processCommands m events).slots id ≤ 1 := by
  simp only [processCommands]
  split
  · exact runLoop_slots_le events m (fun _ => 0) (fun _ => Nat.zero_le 1) id
  · exact runLoop_slots_le events m (fun _ => 0) (fun _ => Nat.zero_le 1) id

/-- Claim C6: a fault (panic) raised while the worker dispatches a
command is caught at the loop's outer scope, causes the loop to exit —
the remaining queued events are never processed — and the cleanup path
still runs exactly once. -/
theorem C6_panic_caught (m : Manager) (es1 : List WorkerEvent) (c : WCommand)
    (rest : List WorkerEvent)
    (hpre : (runLoop m (fun _ => 0) es1).exit = ExitReason.stillWaiting)
    (hp : c.panics = true) :
    (processCommands m (es1 ++ WorkerEvent.recv c :: rest)).exit =
      ExitReason.panicked ∧
    processCommands m (es1 ++ WorkerEvent.recv c :: rest) =
      processCommands m (es1 ++ [WorkerEvent.recv c]) ∧
    (processCommands m (es1 ++ WorkerEvent.recv c :: rest)).cleanups = 1 ∧
    IsRunning (processCommands m (es1 ++ WorkerEvent.recv c :: rest)).mgr =
      false ∧
    State (processCommands m (es1 ++ WorkerEvent.recv c :: rest)).mgr =
      emptyState ∧
    (processCommands m (es1 ++ WorkerEvent.recv c :: rest)).calls.count
      RemoteCall.hardStop ≤ 1 := by
  have hrecv : ∀ (m' : Manager) (slots : Nat → Nat) (es2 : List WorkerEvent),
      runLoop m' slots (WorkerEvent.recv c :: es2) =
        ⟨m', slots, [], ExitReason.panicked⟩ := by
    intro m' slots es2
    simp [runLoop, hp]
  have h1 := runLoop_append es1 m (fun _ => 0) (WorkerEvent.recv c :: rest) hpre
  have h2 := runLoop_append es1 m (fun _ => 0) [WorkerEvent.recv c] hpre
  rw [hrecv] at h1
  rw [hrecv] at h2
  have e1 : (runLoop m (fun _ => 0)
      (es1 ++ WorkerEvent.recv c :: rest)).exit = ExitReason.panicked := by
    rw [h1]
  have e2 : (runLoop m (fun _ => 0)
      (es1 ++ [WorkerEvent.recv c])).exit = ExitReason.panicked := by
    rw [h2]
  have hl1 : (runLoop m (fun _ => 0)
      (es1 ++ WorkerEvent.recv c :: rest)).exit ≠ ExitReason.stillWaiting := by
    rw [e1]; intro hcon; cases hcon
  have hl2 : (runLoop m (fun _ => 0)
      (es1 ++ [WorkerEvent.recv c])).exit ≠ ExitReason.stillWaiting := by
    rw [e2]; intro hcon; cases hcon
  have p1 := processCommands_exited m (es1 ++ WorkerEvent.recv c :: rest) hl1
  have p2 := processCommands_exited m (es1 ++ [WorkerEvent.recv c]) hl2
  refine ⟨?_, ?_, ?_, ?_, ?_, ?_⟩
  · rw [processCommands_exit, e1]
  · rw [p1, p2, h1, h2]
  · rw [p1]
  · rw [p1]; rfl
  · rw [p1]; rfl
  · rw [p1]
    exact run_calls_hardStop_le m (es1 ++ WorkerEvent.recv c :: rest)

/-- Claim C6 witness: a keepalive tick, then a panicking command, with a
further cancellation event left unprocessed behind it. -/
theorem C6_panic_caught_witness :
    (runLoop mLive (fun _ => 0) [WorkerEvent.tick]).exit =
      ExitReason.stillWaiting ∧
    panicCmd.panics = true ∧
    ((processCommands mLive
        ([WorkerEvent.tick] ++ WorkerEvent.recv panicCmd ::
          [WorkerEvent.ctxDone])).exit = ExitReason.panicked ∧
     processCommands mLive
        ([WorkerEvent.tick] ++ WorkerEvent.recv panicCmd ::
          [WorkerEvent.ctxDone]) =
       processCommands mLive
        ([WorkerEvent.tick] ++ [WorkerEvent.recv panicCmd]) ∧
     (processCommands mLive
        ([WorkerEvent.tick] ++ WorkerEvent.recv panicCmd ::
          [WorkerEvent.ctxDone])).cleanups = 1 ∧
     IsRunning (processCommands mLive
        ([WorkerEvent.tick] ++ WorkerEvent.recv panicCmd ::
          [WorkerEvent.ctxDone])).mgr = false ∧
     State (processCommands mLive
        ([WorkerEvent.tick] ++ WorkerEvent.recv panicCmd ::
          [WorkerEvent.ctxDone])).mgr = emptyState ∧
     (processCommands mLive
        ([WorkerEvent.tick] ++ WorkerEvent.recv panicCmd ::
          [WorkerEvent.ctxDone])).calls.count RemoteCall.hardStop ≤ 1) :=
  ⟨by decide, by decide,
   C6_panic_caught mLive [WorkerEvent.tick] panicCmd [WorkerEvent.ctxDone]
     (by decide) (by decide)⟩

/-- Claim C7 counterexample: the claim says that when the worker
processes a Step or GetStatus command it updates the session-state fields
the result affects (status, currentLine, currentProcedure) before
delivering the response.  In the code neither `step` nor `getStatus`
writes any state field: on a live session whose remote step request
succeeds and reports a breakpoint hit, the delivered response has
`Success = true` yet the manager — in particular `currentLine`,
`currentProc` and `status` — is exactly unchanged, and the GetStatus
response merely echoes the pre-existing state snapshot. -/
theorem C7_counterexample :
    (handleCommand mLive stepOverCmd).2.1.success = true ∧
    (handleCommand mLive stepOverCmd).1 = mLive ∧
    (State (handleCommand mLive stepOverCmd).1).currentLine = 0 ∧
    (State (handleCommand mLive stepOverCmd).1).currentProc = "" ∧
    (State (handleCommand mLive stepOverCmd).1).status = "running" ∧
    (handleCommand mLive getStatusCmd).2.1.success = true ∧
    (handleCommand mLive getStatusCmd).2.1.data =
      RespData.stateSnapshot (State mLive) ∧
    (handleCommand mLive getStatusCmd).1 = mLive := by
  decide

/-- Claim C7 (amended): when the worker processes a Step or GetStatus
command it does not update any `SessionState` field — the state is left
exactly unchanged — and the response it builds and delivers carries, for
Step, the raw remote result (step type and response body) and, for
GetStatus, a snapshot of the pre-existing session state. -/
theorem C7_no_state_update (m : Manager) (c : WCommand)
    (h : c.type = AMDPCommandType.step ∨ c.type = AMDPCommandType.getStatus) :
    State (handleCommand m c).1 = State m ∧
    (handleCommand m c).1 = m ∧
    (c.type = AMDPCommandType.step → m.state.mainID ≠ "" →
      c.env.httpErr = false → c.env.statusCode = 200 →
      (handleCommand m c).2.1 =
        { success := true,
          data := RespData.stepResult c.args.stepType c.env.body }) ∧
    (c.type = AMDPCommandType.getStatus → m.state.mainID ≠ "" →
      c.env.httpErr = false → c.env.statusCode = 200 →
      (handleCommand m c).2.1 =
        { success := true, data := RespData.stateSnapshot (State m) }) := by
  refine ⟨by rw [handleCommand_mgr_eq], handleCommand_mgr_eq m c, ?_, ?_⟩
  · intro ht hmid herr hsc
    simp [handleCommand, ht, stepOp, hmid, herr, hsc]
  · intro ht hmid herr hsc
    simp [handleCommand, ht, getStatusOp, hmid, herr, hsc, State]

/-- Claim C7 (amended) witness: evaluated on the live manager with a
successful step-over. -/
theorem C7_no_state_update_witness :
    (stepOverCmd.type = AMDPCommandType.step ∨
      stepOverCmd.type = AMDPCommandType.getStatus) ∧
    (State (handleCommand mLive stepOverCmd).1 = State mLive ∧
     (handleCommand mLive stepOverCmd).1 = mLive ∧
     (stepOverCmd.type = AMDPCommandType.step → mLive.state.mainID ≠ "" →
       stepOverCmd.env.httpErr = false → stepOverCmd.env.statusCode = 200 →
       (handleCommand mLive stepOverCmd).2.1 =
         { success := true,
           data := RespData.stepResult stepOverCmd.args.stepType
             stepOverCmd.env.body }) ∧
     (stepOverCmd.type = AMDPCommandType.getStatus →
       mLive.state.mainID ≠ "" →
       stepOverCmd.env.httpErr = false → stepOverCmd.env.statusCode = 200 →
       (handleCommand mLive stepOverCmd).2.1 =
         { success := true, data := RespData.stateSnapshot (State mLive) })) :=
  ⟨Or.inl (by decide), C7_no_state_update mLive stepOverCmd (Or.inl (by decide))⟩

/-- Claim C8 counterexample: the claimed invariant — `mainID` non-empty
iff status is Running/AtBreakpoint/Stopping — is not preserved by every
operation.  When the remote session-creation response parses but carries
an empty `mainId` element, `Start` succeeds, spawns the worker, and
leaves an externally observable `State()` with status `"running"` and an
empty `mainID`, violating the invariant. -/
theorem C8_counterexample :
    (Start ({} : Manager) "obj" envEmptyMainID).err = none ∧
    (Start ({} : Manager) "obj" envEmptyMainID).workerSpawned = true ∧
    (State (Start ({} : Manager) "obj" envEmptyMainID).mgr).status =
      "running" ∧
    (State (Start ({} : Manager) "obj" envEmptyMainID).mgr).mainID = "" ∧
    ¬ mainIDInv (State (Start ({} : Manager) "obj" envEmptyMainID).mgr) := by
  refine ⟨by decide, by decide, by decide, by decide, ?_⟩
  intro hcon
  exact absurd ((hcon.mpr (by decide)) rfl) (fun hcon2 => hcon2)

/-- Claim C8 (amended): the invariant `mainID ≠ "" ↔ status ∈
{Running, AtBreakpoint, Stopping}` holds at every externally observable
point provided the remote session creation, when it succeeds, returns a
non-empty `mainId`: it holds for the state `Start` installs before
contacting the server, it is preserved by `Start` under that proviso, by
command processing (which never writes the state), by cleanup, and by any
complete worker run. -/
theorem C8_invariant_amended :
    (∀ u : String,
      mainIDInv { emptyState with objectURI := u, status := "starting" }) ∧
    (∀ (m : Manager) (u : String) (env : StartEnv),
      mainIDInv (State m) → sessionMainIDNonEmpty env = true →
      mainIDInv (State (Start m u env).mgr)) ∧
    (∀ (m : Manager) (c : WCommand),
      mainIDInv (State m) → mainIDInv (State (handleCommand m c).1)) ∧
    (∀ m : Manager, mainIDInv (State (cleanupMgr m))) ∧
    (∀ (m : Manager) (es : List WorkerEvent),
      mainIDInv (State m) → mainIDInv (State (processCommands m es).mgr)) := by
  refine ⟨?_, ?_, ?_, ?_, ?_⟩
  · intro u
    exact mainIDInv_of_inactive _ rfl rfl
  · intro m u env hInv hMid
    exact Start_mainIDInv m u env hInv hMid
  · intro m c hInv
    rw [handleCommand_mgr_eq]
    exact hInv
  · intro m
    exact mainIDInv_of_inactive _ rfl rfl
  · intro m es hInv
    simp only [processCommands]
    split
    · rw [runLoop_mgr_eq]
      exact hInv
    · exact mainIDInv_of_inactive _ rfl rfl

/-- Claim C8 (amended) witness: a fresh manager started with a session
response carrying non-empty ids satisfies the invariant. -/
theorem C8_invariant_amended_witness :
    mainIDInv (State ({} : Manager)) ∧
    sessionMainIDNonEmpty envGoodStart = true ∧
    mainIDInv (State (Start ({} : Manager) "obj" envGoodStart).mgr) :=
  ⟨by decide, by decide,
   C8_invariant_amended.2.1 ({} : Manager) "obj" envGoodStart (by decide)
     (by decide)⟩

/-- Claim C9: if the token-fetch HTTP request succeeds but the
`X-CSRF-Token` response header is empty or the literal `"unsafe"`, token
acquisition is treated as failed and `Start` returns the wrapped
token-fetch error without attempting remote session creation or spawning
a worker. -/
theorem C9_bad_token_header (m : Manager) (u : String) (env : StartEnv)
    (r : TokenResp) (h0 : IsRunning m = false)
    (h1 : env.tokenResp = some r)
    (h2 : r.header = "" ∨ r.header = "unsafe") :
    (fetchCSRFToken m (some r)).2 = some TokenErr.badToken ∧
    (Start m u env).err = some (StartErr.tokenFetch TokenErr.badToken) ∧
    RemoteCall.startSession ∉ (Start m u env).calls ∧
    (Start m u env).workerSpawned = false := by
  have h0' : m.running = false := h0
  have hr : ¬ m.running = true := by
    intro hcon; rw [h0'] at hcon; cases hcon
  refine ⟨?_, ?_, ?_, ?_⟩ <;>
    simp [Start, fetchCSRFToken, hr, h1, if_pos h2]

/-- Claim C9 witness: the server answers the HEAD request with an empty
`X-CSRF-Token` header. -/
theorem C9_bad_token_header_witness :
    IsRunning ({} : Manager) = false ∧
    envEmptyHeader.tokenResp = some ⟨""⟩ ∧
    (("" : String) = "" ∨ ("" : String) = "unsafe") ∧
    ((fetchCSRFToken ({} : Manager) (some ⟨""⟩)).2 =
       some TokenErr.badToken ∧
     (Start ({} : Manager) "obj" envEmptyHeader).err =
       some (StartErr.tokenFetch TokenErr.badToken) ∧
     RemoteCall.startSession ∉
       (Start ({} : Manager) "obj" envEmptyHeader).calls ∧
     (Start ({} : Manager) "obj" envEmptyHeader).workerSpawned = false) :=
  ⟨by decide, by decide, Or.inl rfl,
   C9_bad_token_header ({} : Manager) "obj" envEmptyHeader ⟨""⟩ (by decide)
     (by decide) (Or.inl rfl)⟩

/-- Claim C10: when `Start` fails (on token fetch or on remote session
creation), only the running flag is unwound: the public `State()`
snapshot is not reset to the empty value but retains the attempted
objectURI and the status `"starting"` — the reset to the empty value
happens only in cleanup. -/
theorem C10_failed_start_frame (m : Manager) (u : String) (env : StartEnv)
    (h0 : IsRunning m = false) (h : (Start m u env).err ≠ none) :
    IsRunning (Start m u env).mgr = false ∧
    State (Start m u env).mgr =
      { emptyState with objectURI := u, status := "starting" } ∧
    State (Start m u env).mgr ≠ emptyState := by
  have h0' : m.running = false := h0
  obtain ⟨hrun, hstate⟩ := Start_failure_frame m u env h0' h
  refine ⟨hrun, hstate, ?_⟩
  intro hcon
  rw [show State (Start m u env).mgr = (Start m u env).mgr.state from rfl,
    hstate] at hcon
  exact startingState_ne_empty u hcon

/-- Claim C10 witness: a failed token fetch leaves the attempted
snapshot observable. -/
theorem C10_failed_start_frame_witness :
    IsRunning ({} : Manager) = false ∧
    (Start ({} : Manager) "obj" envNoToken).err ≠ none ∧
    (IsRunning (Start ({} : Manager) "obj" envNoToken).mgr = false ∧
     State (Start ({} : Manager) "obj" envNoToken).mgr =
       { emptyState with objectURI := "obj", status := "starting" } ∧
     State (Start ({} : Manager) "obj" envNoToken).mgr ≠ emptyState) :=
  ⟨by decide, by decide,
   C10_failed_start_frame ({} : Manager) "obj" envNoToken (by decide)
     (by decide)⟩

end ABAPDocMCP.AMDP
